import Mathlib

/-!
Verification of the gatekeep persona engine.

This file gives a shallow embedding of the pure logic of the repository
(`src/gatekeep/personas.py`, `src/gatekeep/loader.py`) and proves the
behavioural properties of routing, prompt building, the team-review and
consensus aggregation, the deployment gate, the single-call LLM client and
the configuration loader.

Effectful pieces are embedded explicitly:
* the network is an oracle, and functions that issue calls also return the
  list of calls they made (their trace), so a statement about "the calls
  performed" is a statement about that list;
* a Python exception is an `Except` error value; an uncaught exception is an
  `Except.error` result, a caught-and-stringified one is matched away;
* the persona / governance / standards YAML configuration, which ships next
  to the package rather than inside the Python sources, is a parameter of
  every function that reads it.
-/

namespace Gatekeep

/-- Python `str.lower()`, character by character (as the routing code uses it
on plain ASCII keywords). -/
def pyLower (s : String) : String := ⟨s.data.map Char.toLower⟩

/-- Python `str.upper()`, character by character (used for the governance
mode marker in the system prompt). -/
def pyUpper (s : String) : String := ⟨s.data.map Char.toUpper⟩

/-- Python `needle in hay` on strings: substring occurrence. -/
def pyIn (needle hay : String) : Bool := decide (needle.data <:+: hay.data)

/-- Python `sep.join(parts)`. -/
def pyJoin (sep : String) : List String → String
  | [] => ""
  | [x] => x
  | x :: y :: rest => x ++ sep ++ pyJoin sep (y :: rest)

/-- Helper for `pySplitChar`: split a character list at a separator. -/
def splitCharAux (sep : Char) : List Char → List Char → List (List Char)
  | [], acc => [acc.reverse]
  | c :: rest, acc =>
    if c = sep then acc.reverse :: splitCharAux sep rest []
    else splitCharAux sep rest (c :: acc)

/-- Python `s.split(sep)` for a one-character separator (the code only ever
splits on "/"). -/
def pySplitChar (sep : Char) (s : String) : List String :=
  (splitCharAux sep s.data []).map String.mk

/-! ## Routing (`route_question`, personas.py lines 135-146) -/

/-- A value of the routing table: a keyword maps either to a single persona
name or to a list of persona names. -/
inductive RVal where
  | single (p : String) : RVal
  | list (ps : List String) : RVal
deriving DecidableEq

/-- The body of the `if keyword in q` branch of `route_question`: a single
name is returned as is; a list is resolved to its last element when the
lowercased question mentions "production" or "prod", and to its first
element otherwise.  Indexing an empty list is a Python `IndexError`, which
we keep as an error value. -/
def resolveRoute (q : String) : RVal → Except String String
  | .single p => .ok p
  | .list ps =>
    if pyIn "production" q || pyIn "prod" q then
      match ps.getLast? with
      | some p => .ok p
      | none => .error "IndexError: list index out of range"
    else
      match ps.head? with
      | some p => .ok p
      | none => .error "IndexError: list index out of range"

/-- The `for keyword, persona in keywords.items()` loop of `route_question`,
with its early return. -/
def routeLoop (q : String) : List (String × RVal) → Except String String
  | [] => .ok "reviewer"
  | (keyword, persona) :: rest =>
    if pyIn keyword q then resolveRoute q persona else routeLoop q rest

/-- `route_question(question)`: lowercase the question, walk the routing
rules in order, fall back to "reviewer". -/
def route_question (rules : List (String × RVal)) (question : String) :
    Except String String :=
  routeLoop (pyLower question) rules

/-! ## Persona configuration and prompt formatting
(`loader.py` lines 106-132, `personas.py` lines 38-66) -/

/-- One control of a regulatory standard domain, with the fields the
formatter reads via `control.get(..., "")`. -/
structure Control where
  id : String
  requirement : String
  severity : String
deriving DecidableEq

/-- One domain file of a standard: its list of controls. -/
structure Domain where
  controls : List Control
deriving DecidableEq

/-- The `standard` section of a standard manifest; `none` models a missing
key, for which the formatter substitutes a default. -/
structure Manifest where
  name : Option String
  version : Option String
deriving DecidableEq

/-- A loaded regulatory standard: its manifest and its domain files, keyed
by domain name, in load order. -/
structure Standard where
  manifest : Manifest
  domains : List (String × Domain)
deriving DecidableEq

/-- A persona configuration entry (personas.yaml), with the fields the
engine reads; `none` models a missing key, for which `dict.get` defaults
are substituted at the use sites. -/
structure PersonaConfig where
  character : String
  domain : String
  traits : String
  governance_mode : Option String
  model : Option String
  models : Option (List String)
  emoji : Option String
deriving DecidableEq

/-- Everything `load_all_for_persona` assembles for a known persona: its
configuration, its governance files (filename and `yaml.dump`ed content, in
load order) and its loaded standards (id and content, in load order). -/
structure PersonaData where
  config : PersonaConfig
  governance : List (String × String)
  standards : List (String × Standard)
deriving DecidableEq

/-- The sentinel text `format_governance_for_prompt` returns when no
governance rules are loaded. -/
def GOV_SENTINEL : String := "No specific governance rules loaded."

/-- The sentinel text `format_standards_for_prompt` returns when no
standards apply. -/
def STD_SENTINEL : String := "No regulatory standards applicable."

/-- `format_governance_for_prompt`: a heading and the dumped content per
governance file, joined with blank lines; the sentinel when empty. -/
def format_governance_for_prompt (governance : List (String × String)) : String :=
  if governance = [] then GOV_SENTINEL
  else pyJoin "\n\n" ((governance.map fun p => ["# " ++ p.1, p.2]).flatten)

/-- The line `format_standards_for_prompt` emits for one control. -/
def controlLine (c : Control) : String :=
  "- [" ++ c.id ++ "] (" ++ c.severity ++ ") " ++ c.requirement

/-- The sections `format_standards_for_prompt` emits for one domain: the
domain heading, then one line per control, restricted to the first ten
controls (`[:10]` in the source). -/
def domainSections (p : String × Domain) : List String :=
  ("\n## " ++ p.1) :: (p.2.controls.take 10).map controlLine

/-- The sections `format_standards_for_prompt` emits for one standard: the
manifest heading (name defaulting to the standard id, version defaulting to
"unknown"), then the sections of each domain. -/
def standardSections (p : String × Standard) : List String :=
  ("# " ++ p.2.manifest.name.getD p.1 ++ " (v" ++ p.2.manifest.version.getD "unknown" ++ ")")
    :: (p.2.domains.map domainSections).flatten

/-- `format_standards_for_prompt`: all sections joined by newlines; the
sentinel when no standards apply. -/
def format_standards_for_prompt (standards : List (String × Standard)) : String :=
  if standards = [] then STD_SENTINEL
  else pyJoin "\n" ((standards.map standardSections).flatten)

/-- The fixed response-style footer of every system prompt. -/
def RESPONSE_STYLE : String :=
  "RESPONSE STYLE:\n- Stay in character with appropriate personality\n- Enforce governance and standards strictly\n- Provide actionable, domain-specific advice\n- Flag violations clearly with control IDs when applicable\n- Be helpful but maintain character voice\n- Keep responses focused and concise\n"

/-- The character-and-domain header plus the traits block that opens every
system prompt. -/
def promptHeader (config : PersonaConfig) : String :=
  "You are " ++ config.character ++ ", providing " ++ config.domain ++
    " guidance.\n\nCHARACTER TRAITS:\n" ++ config.traits ++ "\n\n"

/-- The governance block of a system prompt (mode defaults to "standard"). -/
def govSection (config : PersonaConfig) (governance_text : String) : String :=
  "ORGANIZATIONAL GOVERNANCE (" ++ pyUpper (config.governance_mode.getD "standard") ++
    " enforcement):\n" ++ governance_text ++ "\n\n"

/-- The standards block of a system prompt. -/
def stdSection (standards_text : String) : String :=
  "REGULATORY STANDARDS (MUST ENFORCE):\n" ++ standards_text ++ "\n\n"

/-- The body of `build_system_prompt` for a known persona: header, then the
governance block whenever the governance text is not the sentinel, then the
standards block whenever the standards text is not the sentinel, then the
footer. -/
def build_prompt_from_data (d : PersonaData) : String :=
  let governance_text := format_governance_for_prompt d.governance
  let standards_text := format_standards_for_prompt d.standards
  let p1 := promptHeader d.config
  let p2 := if governance_text ≠ GOV_SENTINEL
    then p1 ++ govSection d.config governance_text else p1
  let p3 := if standards_text ≠ STD_SENTINEL
    then p2 ++ stdSection standards_text else p2
  p3 ++ RESPONSE_STYLE

/-- A Python exception value: a `ValueError` or any other exception, carrying
its message. -/
inductive PyError where
  | valueError (msg : String) : PyError
  | other (msg : String) : PyError
deriving DecidableEq

/-- Python `dict.get(name)` over an association list in insertion order. -/
def findConfig {α : Type} (store : List (String × α)) (name : String) : Option α :=
  match store with
  | [] => none
  | (k, v) :: rest => if k = name then some v else findConfig rest name

/-- `build_system_prompt(persona_name)`: look the persona up in the loaded
configuration; raise `ValueError` for an unknown persona, otherwise build
the prompt from its data. -/
def build_system_prompt (store : List (String × PersonaData)) (persona_name : String) :
    Except PyError String :=
  match findConfig store persona_name with
  | none => .error (.valueError ("Unknown persona: " ++ persona_name))
  | some d => .ok (build_prompt_from_data d)

/-- Truncation of a standard to the first ten controls of each domain. -/
def truncateStandard (s : Standard) : Standard :=
  ⟨s.manifest, s.domains.map fun p => (p.1, ⟨p.2.controls.take 10⟩)⟩

/-! ## Orchestration: team review, consensus review, deployment gate
(personas.py lines 100-182) -/

/-- Equality of exception-or-result values is decidable. -/
instance {ε α : Type} [DecidableEq ε] [DecidableEq α] : DecidableEq (Except ε α) := by
  intro a b
  cases a with
  | error x =>
    cases b with
    | error y =>
      exact if h : x = y then isTrue (by rw [h]) else isFalse (by intro hc; cases hc; exact h rfl)
    | ok y => exact isFalse (by intro hc; cases hc)
  | ok x =>
    cases b with
    | error y => exact isFalse (by intro hc; cases hc)
    | ok y =>
      exact if h : x = y then isTrue (by rw [h]) else isFalse (by intro hc; cases hc; exact h rfl)

/-- One call to `consult_persona`: the persona consulted, the question and
the optional context. -/
structure ConsultCall where
  persona : String
  question : String
  context : Option String
deriving DecidableEq

/-- One call to `query_llm`: the model, the system prompt, the user prompt
and the optional context. -/
structure LLMCall where
  model : String
  system : String
  user : String
  context : Option String
deriving DecidableEq

/-- The per-task error isolation of `asyncio.gather(..., return_exceptions=True)`
followed by `f"Error: {resp}" if isinstance(resp, Exception) else resp`. -/
def isolateResult (r : Except String String) : String :=
  match r with
  | .error e => "Error: " ++ e
  | .ok resp => resp

/-- `team_review(content, context)`: consult every persona of the
`team_review` workflow concurrently on its prompt suffix applied to the
content, isolating each task's exception as a stringified error entry. -/
def team_review (consult : ConsultCall → Except String String)
    (workflow : List (String × String)) (content : String) (context : Option String) :
    List (String × String) :=
  workflow.map fun np =>
    (np.1, isolateResult (consult ⟨np.1, np.2 ++ ": " ++ content, context⟩))

/-- Python `model.split("/")[-1]`, the short display name of a model. -/
def modelShortName (model : String) : String := (pySplitChar '/' model).getLastD ""

/-- The block `_consensus_review` appends for one model: an error marker
with the stringified exception on failure, the response otherwise. -/
def consensusEntry (model : String) (resp : Except String String) : String :=
  match resp with
  | .error e => "**" ++ modelShortName model ++ "**: Error — " ++ e ++ "\n\n"
  | .ok r => "**" ++ modelShortName model ++ "**:\n" ++ r ++ "\n\n"

/-- The fixed footer of a consensus review. -/
def CONSENSUS_FOOTER : String := "---\n*Consensus review from multiple perspectives*"

/-- The per-model blocks of `_consensus_review`: the gathered responses
(with exceptions kept as values) zipped back with the models they came
from. -/
def consensusEntries (query : LLMCall → Except String String) (system : String)
    (models : List String) (question : String) (context : Option String) : List String :=
  (models.zip (models.map fun m => query ⟨m, system, question, context⟩)).map
    fun p => consensusEntry p.1 p.2

/-- `_consensus_review` for a persona whose model is "consensus": the emoji
header, each model's block, and the footer. -/
def consensus_review (query : LLMCall → Except String String) (system emoji : String)
    (models : List String) (question : String) (context : Option String) : String :=
  emoji ++ " Peer Review (Multi-LLM Consensus)\n\n"
    ++ String.join (consensusEntries query system models question context)
    ++ CONSENSUS_FOOTER

/-- Python `str(...)` of a gathered result: an exception stringifies to its
message, a response is already a string. -/
def excStr (r : Except String String) : String :=
  match r with
  | .error e => e
  | .ok s => s

/-- The context string `deployment_gate` passes to the approval
consultation: both advisory check results, then the caller's context
(empty when absent). -/
def approvalContext (auditorResp sentinelResp : Except String String)
    (context : Option String) : String :=
  "Cost: " ++ excStr auditorResp ++ "\nSecurity: " ++ excStr sentinelResp ++ "\n"
    ++ context.getD ""

/-- The result record of `deployment_gate`. -/
structure GateResult where
  checks : List (String × Except String String)
  approver : String
  approval : String
  environment : String
deriving DecidableEq

/-- `deployment_gate(deployment_plan, environment, context)`: gather the
auditor cost check and the sentinel security check (exceptions isolated),
pick the approver from the target environment, consult the approver with
both check results in its context (this exception propagates), and return
the record of checks, approver, approval and environment.  The second
component is the trace of `consult_persona` calls, in order. -/
def deployment_gate (consult : ConsultCall → Except String String)
    (deployment_plan environment : String) (context : Option String) :
    Except String GateResult × List ConsultCall :=
  let auditorCall : ConsultCall :=
    ⟨"auditor", "Cost check for deployment: " ++ deployment_plan, context⟩
  let sentinelCall : ConsultCall :=
    ⟨"sentinel", "Security check for deployment: " ++ deployment_plan, context⟩
  let auditorResp := consult auditorCall
  let sentinelResp := consult sentinelCall
  let approver := if pyLower environment = "production" then "guardian" else "tester"
  let approvalCall : ConsultCall :=
    ⟨approver, "Approve deployment to " ++ environment ++ "?\n\nPlan: " ++ deployment_plan,
      some (approvalContext auditorResp sentinelResp context)⟩
  (match consult approvalCall with
   | .error e => .error e
   | .ok approval =>
     .ok ⟨[("auditor", auditorResp), ("sentinel", sentinelResp)],
       approver, approval, environment⟩,
   [auditorCall, sentinelCall, approvalCall])

/-! ## The LLM client (`query_llm`, personas.py lines 69-97) -/

/-- The HTTP request `query_llm` posts: the fixed endpoint and the JSON
payload fields that vary (model, system message, user message). -/
structure HttpRequest where
  url : String
  model : String
  system : String
  user : String
deriving DecidableEq

/-- An HTTP response as `query_llm` consumes it: the status code, the body
text (read on the error path) and the parsed choice contents (read on the
success path). -/
structure HttpResponse where
  status : Nat
  text : String
  choices : List String
deriving DecidableEq

/-- The OpenRouter chat-completions endpoint. -/
def OPENROUTER_URL : String := "https://openrouter.ai/api/v1/chat/completions"

/-- The user message: the context prepended when present. -/
def apiMessage (user_prompt : String) (context : Option String) : String :=
  match context with
  | some c => "Context: " ++ c ++ "\n\n" ++ user_prompt
  | none => user_prompt

/-- The single request an invocation of `query_llm` posts. -/
def openrouterRequest (model system_prompt user_prompt : String)
    (context : Option String) : HttpRequest :=
  ⟨OPENROUTER_URL, model, system_prompt, apiMessage user_prompt context⟩

/-- `query_llm(model, system_prompt, user_prompt, context)`: post one
request; on a non-200 status raise an error carrying the status and body
text, otherwise return the content of the first choice (an empty choices
array would be a Python `IndexError`).  The second component is the list of
requests posted. -/
def query_llm (net : HttpRequest → HttpResponse) (model system_prompt user_prompt : String)
    (context : Option String) : Except String String × List HttpRequest :=
  let req := openrouterRequest model system_prompt user_prompt context
  let response := net req
  (if response.status ≠ 200 then
     .error ("OpenRouter API error " ++ toString response.status ++ ": " ++ response.text)
   else
     match response.choices.head? with
     | some content => .ok content
     | none => .error "IndexError: list index out of range",
   [req])

/-! ## Consulting a persona (`consult_persona`, personas.py lines 100-111) -/

/-- The default model of a persona configuration without a `model` key. -/
def DEFAULT_MODEL : String := "anthropic/claude-3.5-sonnet"

/-- The default model list of a consensus persona without a `models` key. -/
def DEFAULT_CONSENSUS_MODELS : List String := ["anthropic/claude-3.5-sonnet", "openai/gpt-4o"]

/-- The default emoji of a consensus persona without an `emoji` key. -/
def DEFAULT_EMOJI : String := "👁️"

/-- `consult_persona(persona_name, question, context)`: raise `ValueError`
for an unknown persona; otherwise build the system prompt and either run
the consensus review (when the persona's model is "consensus") or query the
persona's model once, letting a query failure propagate as a non-ValueError
exception.  The second component is the trace of `query_llm` calls. -/
def consult_persona (store : List (String × PersonaData))
    (query : LLMCall → Except String String) (persona_name question : String)
    (context : Option String) : Except PyError String × List LLMCall :=
  match findConfig store persona_name with
  | none => (.error (.valueError ("Unknown persona: " ++ persona_name)), [])
  | some d =>
    if d.config.model.getD DEFAULT_MODEL = "consensus" then
      (.ok (consensus_review query (build_prompt_from_data d)
          (d.config.emoji.getD DEFAULT_EMOJI)
          (d.config.models.getD DEFAULT_CONSENSUS_MODELS) question context),
       (d.config.models.getD DEFAULT_CONSENSUS_MODELS).map
         fun m => ⟨m, build_prompt_from_data d, question, context⟩)
    else
      (match query ⟨d.config.model.getD DEFAULT_MODEL, build_prompt_from_data d,
          question, context⟩ with
       | .error e => .error (.other e)
       | .ok r => .ok r,
       [⟨d.config.model.getD DEFAULT_MODEL, build_prompt_from_data d, question, context⟩])

/-! ## The configuration loader (`loader.py` lines 8-33) -/

/-- Where a configuration file can live: under the current working
directory or under the package-bundled defaults. -/
inductive ConfigRoot where
  | cwd : ConfigRoot
  | pkg : ConfigRoot
deriving DecidableEq

/-- A path: a root and the segments below it. -/
structure FsPath where
  root : ConfigRoot
  segments : List String
deriving DecidableEq

/-- A parsed YAML document (`yaml.safe_load` result); `null` is what an
empty file parses to. -/
inductive Yaml where
  | null : Yaml
  | str (s : String) : Yaml
  | arr (items : List Yaml) : Yaml
  | dict (entries : List (String × Yaml)) : Yaml

/-- Python falsiness of a parsed YAML document. -/
def Yaml.isFalsy : Yaml → Bool
  | .null => true
  | .str s => s = ""
  | .arr items => items.isEmpty
  | .dict entries => entries.isEmpty

/-- The empty YAML mapping, which `load_yaml` substitutes for missing or
falsy documents. -/
def EMPTY_DOC : Yaml := .dict []

/-- The world the loader reads: which paths are directories, and the parsed
document of each existing file. -/
structure FileSystem where
  isDir : FsPath → Bool
  file : FsPath → Option Yaml

/-- `_find_config_root()`: the current working directory when it contains a
`governance` subdirectory, the package directory otherwise. -/
def find_config_root (fs : FileSystem) : ConfigRoot :=
  if fs.isDir ⟨.cwd, ["governance"]⟩ then .cwd else .pkg

/-- `_get_paths()`: base, governance, standards and personas directories,
all under the resolved configuration root. -/
def get_paths (fs : FileSystem) : FsPath × FsPath × FsPath × FsPath :=
  let base := find_config_root fs
  (⟨base, []⟩, ⟨base, ["governance"]⟩, ⟨base, ["standards"]⟩, ⟨base, ["personas"]⟩)

/-- Python `dir / name` path join. -/
def pathJoin (p : FsPath) (filename : String) : FsPath := ⟨p.root, p.segments ++ [filename]⟩

/-- `load_yaml(path)`: the empty document for a missing file, the parsed
document otherwise — with falsy parses (in particular `None` from an empty
file) replaced by the empty document. -/
def load_yaml (fs : FileSystem) (path : FsPath) : Yaml :=
  match fs.file path with
  | none => EMPTY_DOC
  | some doc => if doc.isFalsy then EMPTY_DOC else doc

/-- `load_personas()`: the personas document under the resolved root. -/
def load_personas (fs : FileSystem) : Yaml :=
  load_yaml fs (pathJoin (get_paths fs).2.2.2 "personas.yaml")

/-- `load_governance(files)`: the named governance documents under the
resolved root, skipping missing files, in the given order. -/
def load_governance (fs : FileSystem) (files : List String) : List (String × Yaml) :=
  files.filterMap fun filename =>
    match fs.file (pathJoin (get_paths fs).2.1 filename) with
    | none => none
    | some _ => some (filename, load_yaml fs (pathJoin (get_paths fs).2.1 filename))

/-- `load_versions()`: the standards version-tracking document under the
resolved root. -/
def load_versions (fs : FileSystem) : Yaml :=
  load_yaml fs (pathJoin (get_paths fs).2.2.1 "versions.yaml")

/-! ## Theorems -/

/-- Joining a nonempty list of strings keeps the first element as a prefix. -/
theorem pyJoin_cons (sep x : String) (xs : List String) :
    ∃ t : String, pyJoin sep (x :: xs) = x ++ t := by
  cases xs with
  | nil => exact ⟨"", (String.append_empty x).symm⟩
  | cons y ys =>
    exact ⟨sep ++ pyJoin sep (y :: ys), by rw [pyJoin, String.append_assoc]⟩

theorem routeLoop_all_false (q : String) (rules : List (String × RVal))
    (h : ∀ r ∈ rules, pyIn r.1 q = false) : routeLoop q rules = .ok "reviewer" := by
  induction rules with
  | nil => rfl
  | cons r rest ih =>
    obtain ⟨k, v⟩ := r
    rw [routeLoop]
    rw [h (k, v) (List.mem_cons_self _ _)]
    exact ih fun r hr => h r (List.mem_cons_of_mem _ hr)

theorem routeLoop_first_match (q : String) (pre post : List (String × RVal))
    (k : String) (v : RVal) (hpre : ∀ r ∈ pre, pyIn r.1 q = false)
    (hk : pyIn k q = true) :
    routeLoop q (pre ++ (k, v) :: post) = resolveRoute q v := by
  induction pre with
  | nil => rw [List.nil_append, routeLoop, hk]; rfl
  | cons r rest ih =>
    obtain ⟨k', v'⟩ := r
    rw [List.cons_append, routeLoop]
    rw [hpre (k', v') (List.mem_cons_self _ _)]
    exact ih fun r hr => hpre r (List.mem_cons_of_mem _ hr)

/-- C1: `route_question` selects a persona by keyword-substring matching: it
resolves the value mapped to the first routing keyword (in rule order) that
occurs as a substring of the lowercased question — in particular it returns
that persona when the keyword maps to a single name — and it returns
"reviewer" when no keyword occurs in the question. -/
theorem route_question_first_keyword (rules : List (String × RVal)) (question : String) :
    ((∀ r ∈ rules, pyIn r.1 (pyLower question) = false) →
      route_question rules question = .ok "reviewer") ∧
    (∀ pre post k v, rules = pre ++ (k, v) :: post →
      (∀ r ∈ pre, pyIn r.1 (pyLower question) = false) →
      pyIn k (pyLower question) = true →
      route_question rules question = resolveRoute (pyLower question) v ∧
      ∀ p, v = RVal.single p → route_question rules question = .ok p) := by
  refine ⟨fun h => routeLoop_all_false _ _ h, ?_⟩
  rintro pre post k v rfl hpre hk
  refine ⟨routeLoop_first_match _ _ _ _ _ hpre hk, ?_⟩
  rintro p rfl
  rw [route_question, routeLoop_first_match _ _ _ _ _ hpre hk]
  rfl

/-- Witness for C1 at concrete inputs: the first matching keyword wins, and
a question matching no keyword goes to "reviewer". -/
theorem route_question_first_keyword_witness :
    route_question [("security", RVal.single "sentinel"), ("cost", RVal.single "auditor")]
        "Is this SECURITY setup safe?" = .ok "sentinel" ∧
    route_question [("security", RVal.single "sentinel")] "hello there" = .ok "reviewer" := by
  constructor
  · exact ((route_question_first_keyword
      [("security", RVal.single "sentinel"), ("cost", RVal.single "auditor")]
      "Is this SECURITY setup safe?").2 [] [("cost", RVal.single "auditor")]
      "security" (RVal.single "sentinel") rfl (by intro r hr; cases hr) (by decide)).2
      "sentinel" rfl
  · exact (route_question_first_keyword [("security", RVal.single "sentinel")]
      "hello there").1 (by intro r hr; cases hr <;> first | decide | cases (by assumption : r ∈ []))

/-- C8: when the first matching routing keyword maps to a list of personas,
`route_question` returns the last element of the list if the lowercased
question contains "production" or "prod", and the first element otherwise —
always a single persona name, never a list. -/
theorem route_question_list_value (rules : List (String × RVal)) (question : String) :
    ∀ pre post k ps, rules = pre ++ (k, RVal.list ps) :: post →
      (∀ r ∈ pre, pyIn r.1 (pyLower question) = false) →
      pyIn k (pyLower question) = true →
      ∀ hps : ps ≠ [],
      route_question rules question =
        .ok (if pyIn "production" (pyLower question) || pyIn "prod" (pyLower question)
             then ps.getLast hps else ps.head hps) := by
  rintro pre post k ps rfl hpre hk hps
  rw [route_question, routeLoop_first_match _ _ _ _ _ hpre hk, resolveRoute]
  rw [List.getLast?_eq_getLast ps hps, List.head?_eq_head hps]
  by_cases h : (pyIn "production" (pyLower question) || pyIn "prod" (pyLower question)) = true
  · rw [if_pos h, if_pos h]
  · rw [if_neg h, if_neg h]

/-- Witness for C8: a "deploy" keyword mapped to ["tester", "guardian"]
resolves to "guardian" for a production question and to "tester" for a
staging question. -/
theorem route_question_list_value_witness :
    route_question [("deploy", RVal.list ["tester", "guardian"])]
        "Deploy to production please" = .ok "guardian" ∧
    route_question [("deploy", RVal.list ["tester", "guardian"])]
        "Can I deploy to staging?" = .ok "tester" := by
  constructor
  · have h := route_question_list_value [("deploy", RVal.list ["tester", "guardian"])]
      "Deploy to production please" [] [] "deploy" ["tester", "guardian"] rfl
      (by intro r hr; cases hr) (by decide) (by decide)
    rw [h, if_pos (by decide)]
    rfl
  · have h := route_question_list_value [("deploy", RVal.list ["tester", "guardian"])]
      "Can I deploy to staging?" [] [] "deploy" ["tester", "guardian"] rfl
      (by intro r hr; cases hr) (by decide) (by decide)
    rw [h, if_neg (by decide)]
    rfl

/-- A string starting with a hash heading differs from either sentinel. -/
theorem hash_ne_sentinel (l : List Char) :
    ('#' :: l) ≠ GOV_SENTINEL.data ∧ ('#' :: l) ≠ STD_SENTINEL.data := by
  constructor
  · intro h
    have h1 := congrArg List.head? h
    rw [show GOV_SENTINEL.data.head? = some 'N' from rfl] at h1
    simp at h1
  · intro h
    have h1 := congrArg List.head? h
    rw [show STD_SENTINEL.data.head? = some 'N' from rfl] at h1
    simp at h1

theorem format_governance_ne_sentinel (governance : List (String × String))
    (h : governance ≠ []) : format_governance_for_prompt governance ≠ GOV_SENTINEL := by
  match governance, h with
  | p :: rest, h =>
    rw [format_governance_for_prompt, if_neg h]
    obtain ⟨t, ht⟩ := pyJoin_cons "\n\n" ("# " ++ p.1)
      (p.2 :: (rest.map fun q => ["# " ++ q.1, q.2]).flatten)
    rw [show (((p :: rest).map fun q => ["# " ++ q.1, q.2]).flatten) =
        ("# " ++ p.1) :: p.2 :: ((rest.map fun q => ["# " ++ q.1, q.2]).flatten) from rfl, ht]
    intro hcontra
    have hdata := congrArg String.data hcontra
    simp only [String.data_append] at hdata
    exact (hash_ne_sentinel _).1 hdata

theorem format_standards_ne_sentinel (standards : List (String × Standard))
    (h : standards ≠ []) : format_standards_for_prompt standards ≠ STD_SENTINEL := by
  match standards, h with
  | p :: rest, h =>
    rw [format_standards_for_prompt, if_neg h]
    obtain ⟨t, ht⟩ := pyJoin_cons "\n"
      ("# " ++ p.2.manifest.name.getD p.1 ++ " (v" ++ p.2.manifest.version.getD "unknown" ++ ")")
      ((p.2.domains.map domainSections).flatten ++ (rest.map standardSections).flatten)
    rw [show (((p :: rest).map standardSections).flatten) =
        ("# " ++ p.2.manifest.name.getD p.1 ++ " (v" ++ p.2.manifest.version.getD "unknown" ++ ")")
          :: ((p.2.domains.map domainSections).flatten ++ (rest.map standardSections).flatten)
        from rfl, ht]
    intro hcontra
    have hdata := congrArg String.data hcontra
    simp only [String.data_append] at hdata
    exact (hash_ne_sentinel _).2 hdata

/-- C5: for every known persona, `build_system_prompt` returns the
concatenation, in order, of the character-and-domain header with the
character traits, the formatted governance text exactly when any governance
rules are loaded, the formatted standards text exactly when any standards
apply, and the fixed response-style footer. -/
theorem build_system_prompt_sections (store : List (String × PersonaData))
    (persona_name : String) (d : PersonaData)
    (hfound : findConfig store persona_name = some d) :
    build_system_prompt store persona_name =
      .ok (promptHeader d.config
        ++ (if d.governance = [] then ""
            else govSection d.config (format_governance_for_prompt d.governance))
        ++ (if d.standards = [] then ""
            else stdSection (format_standards_for_prompt d.standards))
        ++ RESPONSE_STYLE) := by
  simp only [build_system_prompt, hfound, build_prompt_from_data]
  by_cases hg : d.governance = []
  · have hgs : format_governance_for_prompt d.governance = GOV_SENTINEL := by
      rw [hg, format_governance_for_prompt, if_pos rfl]
    by_cases hs : d.standards = []
    · have hss : format_standards_for_prompt d.standards = STD_SENTINEL := by
        rw [hs, format_standards_for_prompt, if_pos rfl]
      rw [hgs, hss, if_neg (show ¬(GOV_SENTINEL ≠ GOV_SENTINEL) from not_not_intro rfl),
        if_neg (show ¬(STD_SENTINEL ≠ STD_SENTINEL) from not_not_intro rfl),
        if_pos hg, if_pos hs, String.append_empty, String.append_empty]
    · have hss := format_standards_ne_sentinel d.standards hs
      rw [hgs, if_neg (show ¬(GOV_SENTINEL ≠ GOV_SENTINEL) from not_not_intro rfl),
        if_pos hss, if_pos hg, if_neg hs, String.append_empty]
  · have hgs := format_governance_ne_sentinel d.governance hg
    by_cases hs : d.standards = []
    · have hss : format_standards_for_prompt d.standards = STD_SENTINEL := by
        rw [hs, format_standards_for_prompt, if_pos rfl]
      rw [hss, if_pos hgs, if_neg (show ¬(STD_SENTINEL ≠ STD_SENTINEL) from not_not_intro rfl),
        if_neg hg, if_pos hs, String.append_empty]
    · have hss := format_standards_ne_sentinel d.standards hs
      rw [if_pos hgs, if_pos hss, if_neg hg, if_neg hs]

/-- Witness for C5: a persona with one governance file and no standards gets
exactly the header, the governance block and the footer. -/
theorem build_system_prompt_sections_witness :
    build_system_prompt
        [("sentinel", ⟨⟨"Sentinel", "security", "vigilant", none, none, none, none⟩,
          [("security.yaml", "principles: least privilege\n")], []⟩)] "sentinel" =
      .ok (promptHeader ⟨"Sentinel", "security", "vigilant", none, none, none, none⟩
        ++ govSection ⟨"Sentinel", "security", "vigilant", none, none, none, none⟩
            (format_governance_for_prompt [("security.yaml", "principles: least privilege\n")])
        ++ "" ++ RESPONSE_STYLE) := by
  have h := build_system_prompt_sections
    [("sentinel", ⟨⟨"Sentinel", "security", "vigilant", none, none, none, none⟩,
      [("security.yaml", "principles: least privilege\n")], []⟩)] "sentinel"
    ⟨⟨"Sentinel", "security", "vigilant", none, none, none, none⟩,
      [("security.yaml", "principles: least privilege\n")], []⟩ rfl
  rw [h, if_neg (by simp), if_pos rfl]

theorem standardSections_truncate (p : String × Standard) :
    standardSections (p.1, truncateStandard p.2) = standardSections p := by
  obtain ⟨sid, s⟩ := p
  simp only [standardSections, truncateStandard, List.map_map]
  congr 1
  apply congrArg
  apply List.map_congr_left
  intro q _
  simp [Function.comp, domainSections, List.take_take]

/-- C9: `format_standards_for_prompt` includes, per domain, exactly the
lines of the first ten controls in their original order (the truncated
control list is an initial sublist of length at most ten), and the whole
formatted output is unchanged when every domain is truncated to its first
ten controls — so controls beyond the tenth never influence any prompt. -/
theorem format_standards_first_ten (standards : List (String × Standard)) :
    format_standards_for_prompt
        (standards.map fun p => (p.1, truncateStandard p.2)) =
      format_standards_for_prompt standards ∧
    ∀ p : String × Domain,
      domainSections p = ("\n## " ++ p.1) :: (p.2.controls.take 10).map controlLine ∧
      List.Sublist (p.2.controls.take 10) p.2.controls ∧
      (p.2.controls.take 10).length ≤ 10 := by
  constructor
  · by_cases h : standards = []
    · rw [h]; rfl
    · have hmap : ((standards.map fun q => (q.1, truncateStandard q.2)).map standardSections)
          = standards.map standardSections := by
        rw [List.map_map]
        apply List.map_congr_left
        intro q _
        exact standardSections_truncate q
      rw [format_standards_for_prompt, format_standards_for_prompt,
        if_neg (fun hc => h (by simpa using hc)), if_neg h, hmap]
  · intro p
    exact ⟨rfl, List.take_sublist 10 p.2.controls, by
      rw [List.length_take]; exact min_le_left 10 p.2.controls.length⟩

theorem consensusEntries_eq_map (query : LLMCall → Except String String) (system : String)
    (models : List String) (question : String) (context : Option String) :
    consensusEntries query system models question context =
      models.map fun m => consensusEntry m (query ⟨m, system, question, context⟩) := by
  rw [consensusEntries]
  induction models with
  | nil => rfl
  | cons m rest ih => rw [List.map_cons, List.zip_cons_cons, List.map_cons, ih, List.map_cons]

/-- C3: failures are isolated per task.  In `team_review` the entry of each
workflow persona is its own response, or the stringified error when its
consultation raised, independently of every other entry; in the
multi-model consensus review the block of each model likewise reports its
own response or its stringified error.  Both aggregations are total: no
exception escapes them. -/
theorem review_error_isolation (consult : ConsultCall → Except String String)
    (workflow : List (String × String)) (content : String) (context : Option String)
    (query : LLMCall → Except String String) (system : String) (models : List String)
    (question : String) :
    ((team_review consult workflow content context).length = workflow.length ∧
      ∀ (i : Nat) name sfx, workflow[i]? = some (name, sfx) →
        (team_review consult workflow content context)[i]? =
          some (name, isolateResult (consult ⟨name, sfx ++ ": " ++ content, context⟩)) ∧
        (∀ e, consult ⟨name, sfx ++ ": " ++ content, context⟩ = .error e →
          (team_review consult workflow content context)[i]? = some (name, "Error: " ++ e)) ∧
        (∀ r, consult ⟨name, sfx ++ ": " ++ content, context⟩ = .ok r →
          (team_review consult workflow content context)[i]? = some (name, r))) ∧
    ((consensusEntries query system models question context).length = models.length ∧
      ∀ (i : Nat) m, models[i]? = some m →
        (consensusEntries query system models question context)[i]? =
          some (consensusEntry m (query ⟨m, system, question, context⟩)) ∧
        (∀ e, query ⟨m, system, question, context⟩ = .error e →
          (consensusEntries query system models question context)[i]? =
            some ("**" ++ modelShortName m ++ "**: Error — " ++ e ++ "\n\n")) ∧
        (∀ r, query ⟨m, system, question, context⟩ = .ok r →
          (consensusEntries query system models question context)[i]? =
            some ("**" ++ modelShortName m ++ "**:\n" ++ r ++ "\n\n"))) := by
  constructor
  · refine ⟨by rw [team_review, List.length_map], ?_⟩
    intro i name sfx hi
    have hbase : (team_review consult workflow content context)[i]? =
        some (name, isolateResult (consult ⟨name, sfx ++ ": " ++ content, context⟩)) := by
      rw [team_review, List.getElem?_map, hi]; rfl
    refine ⟨hbase, ?_, ?_⟩
    · intro e he; rw [hbase, he]; rfl
    · intro r hr; rw [hbase, hr]; rfl
  · rw [consensusEntries_eq_map]
    refine ⟨by rw [List.length_map], ?_⟩
    intro i m hi
    have hbase : (models.map fun m => consensusEntry m (query ⟨m, system, question, context⟩))[i]? =
        some (consensusEntry m (query ⟨m, system, question, context⟩)) := by
      rw [List.getElem?_map, hi]; rfl
    refine ⟨hbase, ?_, ?_⟩
    · intro e he; rw [hbase, he]; rfl
    · intro r hr; rw [hbase, hr]; rfl

/-- Witness for C3: with a consultant that fails only for "sentinel" and a
query oracle that fails only for the second model, the failing entries are
stringified errors and the other entries are the plain responses. -/
theorem review_error_isolation_witness :
    (team_review
        (fun c => if c.persona = "sentinel" then .error "API error" else .ok "OK")
        [("auditor", "Audit costs"), ("sentinel", "Check security")] "plan" none)[1]? =
      some ("sentinel", "Error: API error") ∧
    (team_review
        (fun c => if c.persona = "sentinel" then .error "API error" else .ok "OK")
        [("auditor", "Audit costs"), ("sentinel", "Check security")] "plan" none)[0]? =
      some ("auditor", "OK") ∧
    (consensusEntries (fun c => if c.model = "openai/gpt-4o" then .error "boom" else .ok "fine")
        "sys" ["anthropic/claude-3.5-sonnet", "openai/gpt-4o"] "q" none)[1]? =
      some ("**gpt-4o**: Error — boom\n\n") := by
  refine ⟨?_, ?_, ?_⟩
  · exact (((review_error_isolation
      (fun c => if c.persona = "sentinel" then .error "API error" else .ok "OK")
      [("auditor", "Audit costs"), ("sentinel", "Check security")] "plan" none
      (fun _ => .ok "") "" [] "").1.2 1 "sentinel" "Check security" rfl).2.1 "API error" (by decide))
  · exact (((review_error_isolation
      (fun c => if c.persona = "sentinel" then .error "API error" else .ok "OK")
      [("auditor", "Audit costs"), ("sentinel", "Check security")] "plan" none
      (fun _ => .ok "") "" [] "").1.2 0 "auditor" "Audit costs" rfl).2.2 "OK" (by decide))
  · exact (((review_error_isolation (fun _ => .ok "") [] "" none
      (fun c => if c.model = "openai/gpt-4o" then .error "boom" else .ok "fine")
      "sys" ["anthropic/claude-3.5-sonnet", "openai/gpt-4o"] "q").2.2 1 "openai/gpt-4o"
      rfl).2.1 "boom" (by decide))

/-- C2: the approver persona chosen by `deployment_gate` depends only on
the target environment — it is "guardian" exactly when the lowercased
environment equals "production" and "tester" otherwise — and the returned
record reports this approver and the given environment unchanged. -/
theorem deployment_gate_approver (consult : ConsultCall → Except String String)
    (deployment_plan environment : String) (context : Option String) :
    ∀ r, (deployment_gate consult deployment_plan environment context).1 = .ok r →
      r.approver = (if pyLower environment = "production" then "guardian" else "tester") ∧
      (r.approver = "guardian" ↔ pyLower environment = "production") ∧
      r.environment = environment := by
  intro r hr
  rw [deployment_gate] at hr
  simp only at hr
  revert hr
  cases consult ⟨(if pyLower environment = "production" then "guardian" else "tester"),
      "Approve deployment to " ++ environment ++ "?\n\nPlan: " ++ deployment_plan,
      some (approvalContext
        (consult ⟨"auditor", "Cost check for deployment: " ++ deployment_plan, context⟩)
        (consult ⟨"sentinel", "Security check for deployment: " ++ deployment_plan, context⟩)
        context)⟩ with
  | error e => intro hr; cases hr
  | ok approval =>
    intro hr
    cases hr
    refine ⟨rfl, ?_, rfl⟩
    constructor
    · intro h
      have h' : (if pyLower environment = "production" then "guardian" else "tester")
          = "guardian" := h
      by_cases henv : pyLower environment = "production"
      · exact henv
      · rw [if_neg henv] at h'
        exact absurd h' (by decide)
    · intro henv
      show (if pyLower environment = "production" then "guardian" else "tester") = "guardian"
      rw [if_pos henv]

/-- Witness for C2: a production deployment is approved by "guardian" and a
test deployment by "tester". -/
theorem deployment_gate_approver_witness :
    (GateResult.mk [("auditor", .ok "ok"), ("sentinel", .ok "ok")] "guardian" "ok"
        "Production").approver = "guardian" ∧
    (GateResult.mk [("auditor", .ok "yes"), ("sentinel", .ok "yes")] "tester" "yes"
        "test").approver = "tester" ∧
    (GateResult.mk [("auditor", .ok "ok"), ("sentinel", .ok "ok")] "guardian" "ok"
        "Production").environment = "Production" := by
  have h1 := deployment_gate_approver (fun _ => .ok "ok") "plan" "Production" none
    ⟨[("auditor", .ok "ok"), ("sentinel", .ok "ok")], "guardian", "ok", "Production"⟩
    (by decide)
  have h2 := deployment_gate_approver (fun _ => .ok "yes") "plan" "test" none
    ⟨[("auditor", .ok "yes"), ("sentinel", .ok "yes")], "tester", "yes", "test"⟩
    (by decide)
  exact ⟨h1.1.trans (by decide), h2.1.trans (by decide), h1.2.2⟩

/-- C4: `deployment_gate` is a two-phase workflow — its consultation trace
is exactly the auditor cost check and the sentinel security check followed
by the single approval call, and the context of the approval call contains
both check results as substrings. -/
theorem deployment_gate_two_phase (consult : ConsultCall → Except String String)
    (deployment_plan environment : String) (context : Option String) :
    (deployment_gate consult deployment_plan environment context).2 =
      [⟨"auditor", "Cost check for deployment: " ++ deployment_plan, context⟩,
       ⟨"sentinel", "Security check for deployment: " ++ deployment_plan, context⟩,
       ⟨(if pyLower environment = "production" then "guardian" else "tester"),
        "Approve deployment to " ++ environment ++ "?\n\nPlan: " ++ deployment_plan,
        some (approvalContext
          (consult ⟨"auditor", "Cost check for deployment: " ++ deployment_plan, context⟩)
          (consult ⟨"sentinel", "Security check for deployment: " ++ deployment_plan, context⟩)
          context)⟩] ∧
    ∀ a s c, (excStr a).data <:+: (approvalContext a s c).data ∧
      (excStr s).data <:+: (approvalContext a s c).data := by
  constructor
  · rw [deployment_gate]
  · intro a s c
    constructor
    · refine ⟨"Cost: ".data, ("\nSecurity: " ++ excStr s ++ "\n" ++ c.getD "").data, ?_⟩
      rw [approvalContext]
      simp only [String.data_append, List.append_assoc]
    · refine ⟨("Cost: " ++ excStr a ++ "\nSecurity: ").data, ("\n" ++ c.getD "").data, ?_⟩
      rw [approvalContext]
      simp only [String.data_append, List.append_assoc]

/-- C6: `query_llm` performs exactly one HTTP call per invocation — its
request trace is the single chat-completions request, so there is no retry,
backoff or streaming.  When the response status is 200 it returns the
content of the first choice of the body, and for every non-200 status it
raises an error whose message carries the status code and the response
text as substrings. -/
theorem query_llm_single_call (net : HttpRequest → HttpResponse)
    (model system_prompt user_prompt : String) (context : Option String) :
    (query_llm net model system_prompt user_prompt context).2 =
      [openrouterRequest model system_prompt user_prompt context] ∧
    (∀ content rest,
      (net (openrouterRequest model system_prompt user_prompt context)).status = 200 →
      (net (openrouterRequest model system_prompt user_prompt context)).choices
        = content :: rest →
      (query_llm net model system_prompt user_prompt context).1 = .ok content) ∧
    ((net (openrouterRequest model system_prompt user_prompt context)).status ≠ 200 →
      (query_llm net model system_prompt user_prompt context).1 =
        .error ("OpenRouter API error "
          ++ toString (net (openrouterRequest model system_prompt user_prompt context)).status
          ++ ": " ++ (net (openrouterRequest model system_prompt user_prompt context)).text) ∧
      (toString (net (openrouterRequest model system_prompt user_prompt context)).status).data
        <:+: ("OpenRouter API error "
          ++ toString (net (openrouterRequest model system_prompt user_prompt context)).status
          ++ ": " ++ (net (openrouterRequest model system_prompt user_prompt context)).text).data ∧
      (net (openrouterRequest model system_prompt user_prompt context)).text.data
        <:+: ("OpenRouter API error "
          ++ toString (net (openrouterRequest model system_prompt user_prompt context)).status
          ++ ": " ++ (net (openrouterRequest model system_prompt user_prompt context)).text).data) := by
  refine ⟨rfl, ?_, ?_⟩
  · intro content rest h200 hch
    simp only [query_llm]
    rw [if_neg (not_not_intro h200), hch]
    rfl
  · intro hne
    refine ⟨?_, ?_, ?_⟩
    · simp only [query_llm]
      rw [if_pos hne]
    · refine ⟨"OpenRouter API error ".data,
        (": " ++ (net (openrouterRequest model system_prompt user_prompt context)).text).data, ?_⟩
      simp only [String.data_append, List.append_assoc]
    · refine ⟨("OpenRouter API error "
          ++ toString (net (openrouterRequest model system_prompt user_prompt context)).status
          ++ ": ").data, [], ?_⟩
      simp only [String.data_append, List.append_assoc, List.append_nil]

/-- Witness for C6: a 200 response yields its first choice, a 404 response
yields the error message carrying status and body text. -/
theorem query_llm_single_call_witness :
    (query_llm (fun _ => ⟨200, "", ["hello"]⟩) "m" "s" "u" none).1 = .ok "hello" ∧
    (query_llm (fun _ => ⟨404, "Not Found", []⟩) "m" "s" "u" none).1 =
      .error "OpenRouter API error 404: Not Found" := by
  constructor
  · exact (query_llm_single_call (fun _ => ⟨200, "", ["hello"]⟩) "m" "s" "u" none).2.1
      "hello" [] rfl rfl
  · exact ((query_llm_single_call (fun _ => ⟨404, "Not Found", []⟩) "m" "s" "u" none).2.2
      (by decide)).1

/-- C10: for a persona name with no configuration entry, `consult_persona`
and `build_system_prompt` raise a `ValueError` identifying the unknown
persona and no LLM query is performed (the query trace is empty); for every
configured persona neither raises a `ValueError` — `build_system_prompt`
succeeds and `consult_persona` never returns a `ValueError`. -/
theorem consult_unknown_persona (store : List (String × PersonaData))
    (query : LLMCall → Except String String) (persona_name question : String)
    (context : Option String) :
    (findConfig store persona_name = none →
      consult_persona store query persona_name question context =
        (.error (.valueError ("Unknown persona: " ++ persona_name)), ([] : List LLMCall)) ∧
      build_system_prompt store persona_name =
        .error (.valueError ("Unknown persona: " ++ persona_name))) ∧
    (∀ d, findConfig store persona_name = some d →
      (∀ msg, (consult_persona store query persona_name question context).1 ≠
        .error (.valueError msg)) ∧
      build_system_prompt store persona_name = .ok (build_prompt_from_data d)) := by
  constructor
  · intro h
    constructor
    · simp [consult_persona, h]
    · simp [build_system_prompt, h]
  · intro d hd
    constructor
    · intro msg
      by_cases hm : d.config.model.getD DEFAULT_MODEL = "consensus"
      · simp [consult_persona, hd, hm]
      · cases hq : query ⟨d.config.model.getD DEFAULT_MODEL, build_prompt_from_data d,
            question, context⟩ with
        | error e => simp [consult_persona, hd, hm, hq]
        | ok r => simp [consult_persona, hd, hm, hq]
    · simp [build_system_prompt, hd]

/-- Witness for C10: an unknown persona gives the ValueError and an empty
query trace; a configured persona never gives a ValueError. -/
theorem consult_unknown_persona_witness :
    consult_persona [("sentinel", ⟨⟨"Sentinel", "security", "vigilant", none, none, none, none⟩,
        [], []⟩)] (fun _ => .ok "fine") "nobody" "q" none =
      (.error (.valueError "Unknown persona: nobody"), ([] : List LLMCall)) ∧
    (consult_persona [("sentinel", ⟨⟨"Sentinel", "security", "vigilant", none, none, none, none⟩,
        [], []⟩)] (fun _ => .ok "fine") "sentinel" "q" none).1 ≠
      .error (.valueError "boom") := by
  constructor
  · exact ((consult_unknown_persona
      [("sentinel", ⟨⟨"Sentinel", "security", "vigilant", none, none, none, none⟩, [], []⟩)]
      (fun _ => .ok "fine") "nobody" "q" none).1 rfl).1
  · exact ((consult_unknown_persona
      [("sentinel", ⟨⟨"Sentinel", "security", "vigilant", none, none, none, none⟩, [], []⟩)]
      (fun _ => .ok "fine") "sentinel" "q" none).2
      ⟨⟨"Sentinel", "security", "vigilant", none, none, none, none⟩, [], []⟩ rfl).1 "boom"

/-- C7: the loader resolves its root to the current working directory
exactly when that directory contains a `governance` subdirectory and to the
package directory otherwise; every persona, governance and standards
document path is relative to the resolved root; and a missing or empty
(null-parsing) YAML file loads as the empty document rather than an
error. -/
theorem config_root_resolution (fs : FileSystem) :
    (find_config_root fs = .cwd ↔ fs.isDir ⟨.cwd, ["governance"]⟩ = true) ∧
    (fs.isDir ⟨.cwd, ["governance"]⟩ = false → find_config_root fs = .pkg) ∧
    get_paths fs = (⟨find_config_root fs, []⟩, ⟨find_config_root fs, ["governance"]⟩,
      ⟨find_config_root fs, ["standards"]⟩, ⟨find_config_root fs, ["personas"]⟩) ∧
    load_personas fs = load_yaml fs ⟨find_config_root fs, ["personas", "personas.yaml"]⟩ ∧
    load_versions fs = load_yaml fs ⟨find_config_root fs, ["standards", "versions.yaml"]⟩ ∧
    (∀ files, load_governance fs files = files.filterMap fun filename =>
      match fs.file ⟨find_config_root fs, ["governance", filename]⟩ with
      | none => none
      | some _ => some (filename, load_yaml fs ⟨find_config_root fs, ["governance", filename]⟩)) ∧
    (∀ p, fs.file p = none → load_yaml fs p = EMPTY_DOC) ∧
    (∀ p, fs.file p = some .null → load_yaml fs p = EMPTY_DOC) := by
  refine ⟨?_, ?_, rfl, rfl, rfl, fun files => rfl, ?_, ?_⟩
  · constructor
    · intro h
      by_cases hb : fs.isDir ⟨.cwd, ["governance"]⟩ = true
      · exact hb
      · rw [find_config_root, if_neg hb] at h
        exact absurd h (by decide)
    · intro hb
      rw [find_config_root, if_pos hb]
  · intro hb
    rw [find_config_root, if_neg (by rw [hb]; decide)]
  · intro p h
    simp [load_yaml, h]
  · intro p h
    simp [load_yaml, h, Yaml.isFalsy]

/-- Witness for C7: a working directory with a governance subdirectory
resolves to the project-local root, one without resolves to the bundled
root, and missing and empty files load as the empty document. -/
theorem config_root_resolution_witness :
    find_config_root ⟨fun p => decide (p = ⟨.cwd, ["governance"]⟩), fun _ => none⟩ = .cwd ∧
    find_config_root ⟨fun _ => false, fun _ => none⟩ = .pkg ∧
    load_yaml ⟨fun _ => false, fun _ => none⟩ ⟨.cwd, ["governance", "security.yaml"]⟩
      = EMPTY_DOC ∧
    load_yaml ⟨fun _ => true, fun _ => some .null⟩ ⟨.pkg, ["personas", "personas.yaml"]⟩
      = EMPTY_DOC := by
  refine ⟨?_, ?_, ?_, ?_⟩
  · exact (config_root_resolution _).1.2 (by decide)
  · exact (config_root_resolution _).2.1 rfl
  · exact (config_root_resolution _).2.2.2.2.2.2.1 _ rfl
  · exact (config_root_resolution _).2.2.2.2.2.2.2 _ rfl

end Gatekeep
